import Mathlib

/-!
Verification development for the dashboard's data aggregation, classification
and query layer (src/main.py).

The embedding follows the source:
* Firestore documents (`doc.to_dict()`) are association lists of field name to
  `Value`; `dGet` is Python's `dict.get` (returns `none` when absent).
* `interpret_score` is the risk classifier (src/main.py lines 44-54), a pure
  function on an optional rational score.
* `fetch_user_data` (lines 59-112) is embedded with the two store capabilities
  as explicit parameters: the Users fetch is an `Except` value (the stream may
  fail as a whole), and the per-user Surveys lookup is a function from the
  user id value to an `Except` of matching survey documents.  The single outer
  try/except of the source is the final `match`: any error anywhere inside the
  loop yields the reported-error/empty-DataFrame result.
* `pd.to_datetime(raw, errors="coerce")` is an abstract total parameter
  `toDatetime : Value -> Option Instant`; `errors="coerce"` plus the inner
  try/except make it `Option`-valued (NaT is `none`).
* Python dynamic typing: `Value.asNum` is the numeric view used by `<=`
  (bools are 1/0); a comparison of a non-numeric score raises, which the
  embedding models as `Except.error` flowing to the outer handler.
* The pandas `sort_values(..., na_position="last")` calls are modelled as a
  stable insertion sort on the given key with the null sentinel ordered after
  every non-null key.  pandas' default sort kind is quicksort, which is not
  documented as stable; the model fixes a stable order, which is observably
  identical except for the relative order of tie rows.
-/

/-- A Firestore field value: string, number (Python int/float as a rational),
boolean, or a native timestamp. -/
inductive Value where
  | str (s : String)
  | num (q : ℚ)
  | boolV (b : Bool)
  | ts (epoch : Int)
  deriving DecidableEq, Repr

/-- A document body, the result of `doc.to_dict()`: an association list of
field names to values.  The empty list is a falsy (empty) dict. -/
abbrev Doc := List (String × Value)

/-- Python `data.get(k)`: first binding of `k`, or `None`. -/
def dGet (d : Doc) (k : String) : Option Value :=
  (d.find? (fun p => p.1 == k)).map Prod.snd

/-- Python truthiness of a field value (`if raw_timestamp:`):
empty string, zero and `False` are falsy; a native timestamp is truthy. -/
def truthy : Value → Bool
  | .str s => s ≠ ""
  | .num q => q ≠ 0
  | .boolV b => b
  | .ts _ => true

/-- The numeric view Python's comparison operators use: numbers are
themselves, booleans are 1/0, anything else raises `TypeError` (`none`). -/
def Value.asNum : Value → Option ℚ
  | .num q => some q
  | .boolV b => some (if b then 1 else 0)
  | _ => none

/-- `interpret_score` (src/main.py lines 44-54): the risk classifier on an
optional numeric score. -/
def interpret_score : Option ℚ → String
  | none => "Unknown"
  | some score =>
      if score ≤ 20 then "Low Risk"
      else if score ≤ 35 then "Moderate Risk"
      else if score ≤ 39 then "High Risk"
      else "Very High Risk"

/-- `interpret_score` as called on a raw document field: `None` is checked
first; otherwise the comparisons need a numeric value, and a non-numeric
score raises (modelled as `Except.error ()`), to be caught by the outer
handler of `fetch_user_data`. -/
def interpretScoreV (v : Option Value) : Except Unit String :=
  match v with
  | none => .ok (interpret_score none)
  | some w =>
      match w.asNum with
      | some q => .ok (interpret_score (some q))
      | none => .error ()

/-- A canonical instant (the value of a parsed `pd.Timestamp`). -/
structure Instant where
  year : Nat
  month : Nat
  day : Nat
  hour : Nat
  minute : Nat
  second : Nat
  deriving DecidableEq, Repr

/-- Zero-pad a natural to two digits (strftime field padding). -/
def pad2 (n : Nat) : String :=
  if n < 10 then "0" ++ toString n else toString n

/-- Zero-pad a natural to four digits (strftime `%Y`). -/
def pad4 (n : Nat) : String :=
  if n < 10 then "000" ++ toString n
  else if n < 100 then "00" ++ toString n
  else if n < 1000 then "0" ++ toString n
  else toString n

/-- `raw_timestamp.strftime(...)` with the fixed day-month-year
hour:minute:second pattern of src/main.py line 105. -/
def fmtInstant (t : Instant) : String :=
  pad2 t.day ++ "-" ++ pad2 t.month ++ "-" ++ pad4 t.year ++ " " ++
    pad2 t.hour ++ ":" ++ pad2 t.minute ++ ":" ++ pad2 t.second

/-- Timestamp normalization of src/main.py lines 74-81: an absent or falsy
raw value becomes NaT without parsing; otherwise `pd.to_datetime` with
`errors="coerce"` inside try/except, so failure is NaT, never an exception. -/
def normalizeTimestamp (toDatetime : Value → Option Instant)
    (raw : Option Value) : Option Instant :=
  match raw with
  | none => none
  | some v => if truthy v then toDatetime v else none

/-- The display string of src/main.py line 105: formatted instant, or the
literal string for NaT. -/
def displayTimestamp : Option Instant → String
  | some t => fmtInstant t
  | none => "N/A"

/-- One row of the built DataFrame (src/main.py lines 93-106). -/
structure JoinedRow where
  name : Option Value
  email : Option Value
  phone : Option Value
  age : Option Value
  gender : Option Value
  height : Option Value
  weight : Option Value
  paymentStatus : Option Value
  questionScore : Option Value
  riskLevel : String
  rawTimestamp : Option Instant
  timestampDisp : String
  deriving DecidableEq, Repr

/-- The loop body of `fetch_user_data` for one Users document
(src/main.py lines 68-106).  Returns the rows appended for this document
(empty when `data` is falsy and the document is skipped), or the error that
escapes to the outer handler (a failing survey lookup, or a non-numeric
score reaching a comparison). -/
def processDoc (toDatetime : Value → Option Instant)
    (surveyStore : Option Value → Except Unit (List Doc))
    (data : Doc) : Except Unit (List JoinedRow) :=
  if data = [] then .ok []
  else
    let user_id := dGet data "id"
    let raw := normalizeTimestamp toDatetime (dGet data "createdAt")
    match surveyStore user_id with
    | .error e => .error e
    | .ok surveyDocs =>
      let question_score :=
        match surveyDocs with
        | [] => none
        | s :: _ => dGet s "questionScore"
      match interpretScoreV question_score with
      | .error e => .error e
      | .ok risk =>
        .ok [{ name := dGet data "name", email := dGet data "email",
               phone := dGet data "phone", age := dGet data "age",
               gender := dGet data "gender", height := dGet data "height",
               weight := dGet data "weight",
               paymentStatus := dGet data "gutTestPaymentStatus",
               questionScore := question_score, riskLevel := risk,
               rawTimestamp := raw, timestampDisp := displayTimestamp raw }]

/-- The whole `for doc in docs` loop, accumulating `user_data` in order. -/
def processDocs (toDatetime : Value → Option Instant)
    (surveyStore : Option Value → Except Unit (List Doc)) :
    List Doc → Except Unit (List JoinedRow)
  | [] => .ok []
  | d :: rest =>
    match processDoc toDatetime surveyStore d with
    | .error e => .error e
    | .ok rs =>
      match processDocs toDatetime surveyStore rest with
      | .error e => .error e
      | .ok more => .ok (rs ++ more)

/-- The outcome of `fetch_user_data`: whether `st.error` was shown, and the
rows of the returned DataFrame (empty on any error). -/
structure FetchResult where
  errorReported : Bool
  rows : List JoinedRow
  deriving DecidableEq, Repr

/-- `fetch_user_data` (src/main.py lines 59-112).  `usersFetch` is the
Users-collection stream: `.error` when the fetch itself fails.  The single
try/except wrapping the whole body means any error, from the stream or from
inside the loop, produces the reported error and the empty DataFrame. -/
def fetch_user_data (toDatetime : Value → Option Instant)
    (usersFetch : Except Unit (List Doc))
    (surveyStore : Option Value → Except Unit (List Doc)) : FetchResult :=
  match usersFetch with
  | .error _ => { errorReported := true, rows := [] }
  | .ok docs =>
    match processDocs toDatetime surveyStore docs with
    | .error _ => { errorReported := true, rows := [] }
    | .ok rows => { errorReported := false, rows := rows }

/-- Python `df["Payment Status"] == b` elementwise: `None == b` is `False`;
a boolean compares directly; Python numbers equal `True`/`False` when they
equal 1/0; strings and timestamps never equal a bool. -/
def pyEqBool (v : Option Value) (b : Bool) : Bool :=
  match v with
  | none => false
  | some (.boolV c) => c == b
  | some (.num q) => q == (if b then 1 else 0)
  | some (.str _) => false
  | some (.ts _) => false

/-- Python `df["Gender"] == s` elementwise for a string literal `s`. -/
def pyEqStr (v : Option Value) (s : String) : Bool :=
  match v with
  | some (.str t) => t == s
  | _ => false

/-- The Payment Status branch of the sort/filter section
(src/main.py lines 135-140): filter on the flag, never sort. -/
def applyPaymentFilter (payment_filter : String) (rows : List JoinedRow) :
    List JoinedRow :=
  if payment_filter = "True" then
    rows.filter (fun r => pyEqBool r.paymentStatus true)
  else if payment_filter = "False" then
    rows.filter (fun r => pyEqBool r.paymentStatus false)
  else rows

/-- The Gender branch (src/main.py lines 142-145). -/
def applyGenderFilter (gender_filter : String) (rows : List JoinedRow) :
    List JoinedRow :=
  if gender_filter ≠ "All" then
    rows.filter (fun r => pyEqStr r.gender gender_filter)
  else rows

/-- Total lexicographic order on instants, the order `pd.Timestamp`
comparison induces. -/
def Instant.leb (a b : Instant) : Bool :=
  if a.year < b.year then true else if b.year < a.year then false
  else if a.month < b.month then true else if b.month < a.month then false
  else if a.day < b.day then true else if b.day < a.day then false
  else if a.hour < b.hour then true else if b.hour < a.hour then false
  else if a.minute < b.minute then true else if b.minute < a.minute then false
  else decide (a.second ≤ b.second)

/-- Python `<=` between two field values, as pandas comparison sorting uses:
numeric against numeric (bools count as 1/0), string against string;
a cross-type comparison raises in Python and is not exercised here. -/
def pyLeV (a b : Value) : Bool :=
  match a, b with
  | .num x, .num y => decide (x ≤ y)
  | .num x, .boolV y => decide (x ≤ (if y then 1 else 0))
  | .boolV x, .num y => decide ((if x then (1:ℚ) else 0) ≤ y)
  | .boolV x, .boolV y => decide ((if x then (1:ℚ) else 0) ≤ (if y then 1 else 0))
  | .str x, .str y => decide (x ≤ y)
  | .ts x, .ts y => decide (x ≤ y)
  | _, _ => false

/-- The key order of `sort_values(..., na_position="last")`: null keys sort
after every non-null key in both directions; non-null keys compare by `le`,
flipped when descending. -/
def naLastLe {α : Type} (le : α → α → Bool) (ascending : Bool)
    (a b : Option α) : Bool :=
  match a, b with
  | none, none => true
  | none, some _ => false
  | some _, none => true
  | some x, some y => if ascending then le x y else le y x

/-- Insert into a sorted list: before the first element it is `le` to. -/
def insertLe {α : Type} (le : α → α → Bool) (x : α) : List α → List α
  | [] => [x]
  | y :: ys => if le x y then x :: y :: ys else y :: insertLe le x ys

/-- Stable insertion sort by a boolean relation (the model of
`DataFrame.sort_values` on one column; see the header note on sort kind). -/
def sortByLe {α : Type} (le : α → α → Bool) : List α → List α
  | [] => []
  | x :: xs => insertLe le x (sortByLe le xs)

/-- The value of a displayable column of a row (DataFrame column access). -/
def colVal (col : String) (r : JoinedRow) : Option Value :=
  if col = "Name" then r.name
  else if col = "Email" then r.email
  else if col = "Phone" then r.phone
  else if col = "Age" then r.age
  else if col = "Gender" then r.gender
  else if col = "Height" then r.height
  else if col = "Weight" then r.weight
  else if col = "Payment Status" then r.paymentStatus
  else if col = "Question Score" then r.questionScore
  else none

/-- The sort & filter section of src/main.py lines 135-159, for one choice of
column, the two filter radio values, and the sort order radio value.
The Payment Status and Gender branches only filter; the Timestamp branch
sorts on the underlying Raw Timestamp with NaT last; the remaining branches
sort on the column's own values (pandas default `na_position` is last). -/
def sort_column (col payment_filter gender_filter sort_order : String)
    (rows : List JoinedRow) : List JoinedRow :=
  if col = "Payment Status" then applyPaymentFilter payment_filter rows
  else if col = "Gender" then applyGenderFilter gender_filter rows
  else
    let ascending : Bool := sort_order == "Ascending"
    if col = "Age" ∨ col = "Height" ∨ col = "Weight" ∨ col = "Timestamp" ∨
        col = "Question Score" then
      if col = "Timestamp" then
        sortByLe (fun a b =>
          naLastLe Instant.leb ascending a.rawTimestamp b.rawTimestamp) rows
      else
        sortByLe (fun a b =>
          naLastLe pyLeV ascending (colVal col a) (colVal col b)) rows
    else
      sortByLe (fun a b =>
        naLastLe pyLeV ascending (colVal col a) (colVal col b)) rows

/-- C1: the risk classifier is a pure total function on an optional numeric
score matching the boundary table exactly: absent score gives Unknown,
score <= 20 gives Low Risk, 20 < score <= 35 gives Moderate Risk,
35 < score <= 39 gives High Risk, score > 39 gives Very High Risk; negative
scores fall in the <= 20 band with no lower clamp. -/
theorem interpret_score_matches_boundary_table (s : Option ℚ) :
    (s = none → interpret_score s = "Unknown") ∧
    (∀ q : ℚ, s = some q →
      (q ≤ 20 → interpret_score s = "Low Risk") ∧
      (20 < q → q ≤ 35 → interpret_score s = "Moderate Risk") ∧
      (35 < q → q ≤ 39 → interpret_score s = "High Risk") ∧
      (39 < q → interpret_score s = "Very High Risk")) := by
  refine ⟨fun h => by rw [h]; rfl, fun q hq => ?_⟩
  rw [hq]
  refine ⟨fun hq1 => ?_, fun hq1 hq2 => ?_, fun hq1 hq2 => ?_, fun hq1 => ?_⟩ <;>
    simp only [interpret_score] <;> split_ifs <;> first | rfl | linarith

/-- Witness for C1 at the concrete score 38 (the High Risk band). -/
theorem interpret_score_matches_boundary_table_witness :
    interpret_score (some 38) = "High Risk" :=
  ((interpret_score_matches_boundary_table (some 38)).2 38 rfl).2.2.1
    (by norm_num) (by norm_num)

/-- C7: when the fetch of the Users collection itself fails, the whole build
fails: the error is reported and the result is the empty but valid
DataFrame, never a partial or null one. -/
theorem whole_fetch_failure_empty_snapshot (td : Value → Option Instant)
    (ss : Option Value → Except Unit (List Doc)) (e : Unit) :
    fetch_user_data td (.error e) ss =
      { errorReported := true, rows := [] } := rfl

/-- C6: the timestamp normalizer is total (no exception escapes), absent
input and parser failure both resolve to the null sentinel, the sentinel
displays as the literal string for not-available, every input displays
either as that literal or as the fixed day-month-year hour:minute:second
pattern of a canonical instant. -/
theorem timestamp_normalizer_total_safe (toDatetime : Value → Option Instant)
    (v : Value) (t : Instant) :
    normalizeTimestamp toDatetime none = none ∧
    (toDatetime v = none → normalizeTimestamp toDatetime (some v) = none) ∧
    displayTimestamp none = "N/A" ∧
    displayTimestamp (some t) =
      pad2 t.day ++ "-" ++ pad2 t.month ++ "-" ++ pad4 t.year ++ " " ++
        pad2 t.hour ++ ":" ++ pad2 t.minute ++ ":" ++ pad2 t.second ∧
    (∀ raw : Option Value,
      displayTimestamp (normalizeTimestamp toDatetime raw) = "N/A" ∨
      ∃ u, normalizeTimestamp toDatetime raw = some u ∧
        displayTimestamp (normalizeTimestamp toDatetime raw) = fmtInstant u) := by
  refine ⟨rfl, fun h => ?_, rfl, rfl, fun raw => ?_⟩
  · simp only [normalizeTimestamp]
    split
    · exact h
    · rfl
  · cases hn : normalizeTimestamp toDatetime raw with
    | none => left; rfl
    | some u => right; exact ⟨u, rfl, rfl⟩

/-- Witness for C6: a parser that fails on a malformed (but truthy) raw
string yields the null sentinel. -/
theorem timestamp_normalizer_total_safe_witness :
    normalizeTimestamp (fun _ => none) (some (.str "garbage")) = none :=
  (timestamp_normalizer_total_safe (fun _ => none) (.str "garbage")
    ⟨2024, 1, 2, 3, 4, 5⟩).2.1 rfl

/-- C10: a present-but-falsy raw creation time (empty string, zero, False)
is treated exactly like an absent one: the parser is never consulted (the
result is the same for every parser), the canonical instant is the null
sentinel, and the emitted row displays the not-available literal. -/
theorem falsy_created_at_treated_as_absent (td td2 : Value → Option Instant)
    (v : Value) (data : Doc) (ss : Option Value → Except Unit (List Doc))
    (hf : truthy v = false)
    (hcr : dGet data "createdAt" = some v) (hne : data ≠ [])
    (hss : ss (dGet data "id") = .ok []) :
    truthy (.str "") = false ∧ truthy (.num 0) = false ∧
    truthy (.boolV false) = false ∧
    normalizeTimestamp td (some v) = none ∧
    normalizeTimestamp td2 (some v) = normalizeTimestamp td (some v) ∧
    displayTimestamp (normalizeTimestamp td (some v)) = "N/A" ∧
    (∃ row, processDoc td ss data = .ok [row] ∧
      row.rawTimestamp = none ∧ row.timestampDisp = "N/A") := by
  have hnorm : ∀ td3 : Value → Option Instant,
      normalizeTimestamp td3 (some v) = none := by
    intro td3
    simp only [normalizeTimestamp, hf]
    rfl
  refine ⟨rfl, by decide, rfl, hnorm td, by rw [hnorm td, hnorm td2], ?_, ?_⟩
  · rw [hnorm td]; rfl
  · refine ⟨{ name := dGet data "name", email := dGet data "email",
              phone := dGet data "phone", age := dGet data "age",
              gender := dGet data "gender", height := dGet data "height",
              weight := dGet data "weight",
              paymentStatus := dGet data "gutTestPaymentStatus",
              questionScore := none, riskLevel := "Unknown",
              rawTimestamp := normalizeTimestamp td (dGet data "createdAt"),
              timestampDisp := displayTimestamp
                (normalizeTimestamp td (dGet data "createdAt")) }, ?_, ?_, ?_⟩
    · unfold processDoc
      rw [if_neg hne]
      simp only [hss, interpretScoreV, interpret_score]
    · show normalizeTimestamp td (dGet data "createdAt") = none
      rw [hcr]
      exact hnorm td
    · show displayTimestamp (normalizeTimestamp td (dGet data "createdAt")) = "N/A"
      rw [hcr, hnorm td]
      rfl

/-- Witness for C10 at a concrete record whose raw creation time is the
empty string. -/
theorem falsy_created_at_treated_as_absent_witness :
    normalizeTimestamp (fun _ => some ⟨2024, 1, 1, 0, 0, 0⟩)
      (some (.str "")) = none :=
  (falsy_created_at_treated_as_absent (fun _ => some ⟨2024, 1, 1, 0, 0, 0⟩)
    (fun _ => none) (.str "") [("createdAt", .str "")] (fun _ => .ok [])
    rfl rfl (by decide) rfl).2.2.2.1

/-- C3: a PrimaryRecord whose body carries identity key K yields exactly one
JoinedRow; when the survey store returns one or more matching RelatedRecords
for K, the row's score is the score field of the first one in store-return
order (no aggregate), and its risk level is the classification of exactly
that score. -/
theorem joiner_emits_one_row_first_match (td : Value → Option Instant)
    (ss : Option Value → Except Unit (List Doc)) (data : Doc) (K : Value)
    (s : Doc) (rest : List Doc) (risk : String)
    (hid : dGet data "id" = some K)
    (hss : ss (some K) = .ok (s :: rest))
    (hrisk : interpretScoreV (dGet s "questionScore") = .ok risk) :
    ∃ row, processDoc td ss data = .ok [row] ∧
      row.questionScore = dGet s "questionScore" ∧
      row.riskLevel = risk ∧
      fetch_user_data td (.ok [data]) ss =
        { errorReported := false, rows := [row] } := by
  have hne : data ≠ [] := by
    intro h
    rw [h] at hid
    simp [dGet] at hid
  have hpd : processDoc td ss data = .ok
      [{ name := dGet data "name", email := dGet data "email",
         phone := dGet data "phone", age := dGet data "age",
         gender := dGet data "gender", height := dGet data "height",
         weight := dGet data "weight",
         paymentStatus := dGet data "gutTestPaymentStatus",
         questionScore := dGet s "questionScore", riskLevel := risk,
         rawTimestamp := normalizeTimestamp td (dGet data "createdAt"),
         timestampDisp := displayTimestamp
           (normalizeTimestamp td (dGet data "createdAt")) }] := by
    unfold processDoc
    rw [if_neg hne]
    simp only [hid, hss, hrisk]
  refine ⟨_, hpd, rfl, rfl, ?_⟩
  simp only [fetch_user_data, processDocs, hpd, List.append_nil]

/-- Concrete survey store for the C3 witness scenario: two RelatedRecords
match the key, with scores 38 then 99 in store-return order. -/
def c3store : Option Value → Except Unit (List Doc) :=
  fun k => if k = some (Value.str "u1")
    then .ok [[("questionScore", Value.num 38)], [("questionScore", Value.num 99)]]
    else .ok []

/-- Witness for C3: two matching RelatedRecords (scores 38 and 99); exactly
one row is emitted and its score is 38, the first in store order. -/
theorem joiner_emits_one_row_first_match_witness :
    ∃ row, processDoc (fun _ => none) c3store [("id", Value.str "u1")] =
        .ok [row] ∧
      row.questionScore = some (Value.num 38) ∧
      row.riskLevel = "High Risk" := by
  obtain ⟨row, h1, h2, h3, h4⟩ :=
    joiner_emits_one_row_first_match (fun _ => none) c3store
      [("id", Value.str "u1")] (Value.str "u1")
      [("questionScore", Value.num 38)] [[("questionScore", Value.num 99)]]
      "High Risk" rfl rfl rfl
  exact ⟨row, h1, by rw [h2]; rfl, h3⟩

/-- The three-record batch of the C2 scenario: a record with a matching
survey, a record with no match, and a record whose identity key is missing
(but whose body is non-empty). -/
def c2doc1 : Doc := [("id", Value.str "u1"), ("name", Value.str "A")]

/-- Second record of the C2 scenario (no matching survey). -/
def c2doc2 : Doc := [("id", Value.str "u2"), ("name", Value.str "B")]

/-- Third record of the C2 scenario: non-empty body, no identity key. -/
def c2doc3 : Doc := [("name", Value.str "C")]

/-- Survey store of the C2 scenario: one survey with score 38 for key u1. -/
def c2store : Option Value → Except Unit (List Doc) :=
  fun k => if k = some (Value.str "u1")
    then .ok [[("questionScore", Value.num 38)]] else .ok []

/-- Counterexample to C2: on the batch of three PrimaryRecords of which one
has a missing identity key, the built dataset contains 3 JoinedRows, not 2:
the malformed record is NOT skipped — it appears with Unknown risk. -/
theorem missing_identity_key_not_skipped_cex :
    (fetch_user_data (fun _ => none) (.ok [c2doc1, c2doc2, c2doc3])
        c2store).rows.length = 3 ∧
    (fetch_user_data (fun _ => none) (.ok [c2doc1, c2doc2, c2doc3])
        c2store).rows.map (fun r => r.riskLevel) =
      ["High Risk", "Unknown", "Unknown"] ∧
    ¬ ((fetch_user_data (fun _ => none) (.ok [c2doc1, c2doc2, c2doc3])
        c2store).rows.length = 2) := by
  have h3 : (fetch_user_data (fun _ => none) (.ok [c2doc1, c2doc2, c2doc3])
      c2store).rows.length = 3 := rfl
  refine ⟨h3, rfl, ?_⟩
  rw [h3]
  decide

/-- C2 amended: the joiner skips a PrimaryRecord exactly when its parsed
body is empty (falsy `to_dict`), without aborting the batch, so a batch of
3 records of which one has an empty body yields exactly 2 JoinedRows; a
record whose identity key is merely missing is NOT skipped — it yields a
JoinedRow with absent score and Unknown risk. -/
theorem skip_only_empty_body (td : Value → Option Instant)
    (ss : Option Value → Except Unit (List Doc))
    (data : Doc) (hne : data ≠ []) (hid : dGet data "id" = none)
    (hss : ss none = .ok [])
    (d1 d2 : Doc) (r1 r2 : JoinedRow)
    (h1 : processDoc td ss d1 = .ok [r1])
    (h2 : processDoc td ss d2 = .ok [r2]) :
    processDoc td ss ([] : Doc) = .ok [] ∧
    (∃ row, processDoc td ss data = .ok [row] ∧
      row.riskLevel = "Unknown" ∧ row.questionScore = none) ∧
    (fetch_user_data td (.ok [d1, d2, ([] : Doc)]) ss).rows = [r1, r2] ∧
    (fetch_user_data td (.ok [d1, d2, ([] : Doc)]) ss).rows.length = 2 := by
  have hbatch : (fetch_user_data td (.ok [d1, d2, ([] : Doc)]) ss).rows =
      [r1, r2] := by
    simp only [fetch_user_data, processDocs, h1, h2, List.append_nil]
    rfl
  refine ⟨rfl, ?_, hbatch, by rw [hbatch]; rfl⟩
  refine ⟨{ name := dGet data "name", email := dGet data "email",
            phone := dGet data "phone", age := dGet data "age",
            gender := dGet data "gender", height := dGet data "height",
            weight := dGet data "weight",
            paymentStatus := dGet data "gutTestPaymentStatus",
            questionScore := none, riskLevel := "Unknown",
            rawTimestamp := normalizeTimestamp td (dGet data "createdAt"),
            timestampDisp := displayTimestamp
              (normalizeTimestamp td (dGet data "createdAt")) }, ?_, rfl, rfl⟩
  unfold processDoc
  rw [if_neg hne]
  simp only [hid, hss, interpretScoreV, interpret_score]

/-- The row built from the first C2 record (survey score 38). -/
def c2row1 : JoinedRow :=
  { name := some (Value.str "A"), email := none, phone := none, age := none,
    gender := none, height := none, weight := none, paymentStatus := none,
    questionScore := some (Value.num 38), riskLevel := "High Risk",
    rawTimestamp := none, timestampDisp := "N/A" }

/-- The row built from the second C2 record (no matching survey). -/
def c2row2 : JoinedRow :=
  { name := some (Value.str "B"), email := none, phone := none, age := none,
    gender := none, height := none, weight := none, paymentStatus := none,
    questionScore := none, riskLevel := "Unknown",
    rawTimestamp := none, timestampDisp := "N/A" }

/-- Witness for the amended C2: a 3-record batch whose third record has an
empty body yields exactly the 2 rows of the non-empty records. -/
theorem skip_only_empty_body_witness :
    (fetch_user_data (fun _ => none) (.ok [c2doc1, c2doc2, ([] : Doc)])
      c2store).rows = [c2row1, c2row2] :=
  (skip_only_empty_body (fun _ => none) c2store c2doc3 (by decide) rfl rfl
    c2doc1 c2doc2 c2row1 c2row2 rfl rfl).2.2.1

/-- The two-record batch of the C8 scenario. -/
def c8doc1 : Doc := [("id", Value.str "u1"), ("name", Value.str "A")]

/-- Second record of the C8 scenario; its survey lookup fails. -/
def c8doc2 : Doc := [("id", Value.str "u2"), ("name", Value.str "B")]

/-- Survey store of the C8 scenario: the lookup for key u2 fails, every
other lookup succeeds with no match. -/
def c8store : Option Value → Except Unit (List Doc) :=
  fun k => if k = some (Value.str "u2") then .error () else .ok []

/-- Counterexample to C8: one failing per-record lookup in a 2-record batch
is NOT absorbed as "no related record": the whole build aborts, reporting
an error and returning zero rows instead of 2 rows with one Unknown. -/
theorem lookup_failure_not_absorbed_cex :
    (fetch_user_data (fun _ => none) (.ok [c8doc1, c8doc2]) c8store).rows
      = [] ∧
    (fetch_user_data (fun _ => none) (.ok [c8doc1, c8doc2])
      c8store).errorReported = true ∧
    ¬ ((fetch_user_data (fun _ => none) (.ok [c8doc1, c8doc2])
      c8store).rows.length = 2) := by
  refine ⟨rfl, rfl, ?_⟩
  have h0 : (fetch_user_data (fun _ => none) (.ok [c8doc1, c8doc2])
      c8store).rows.length = 0 := rfl
  rw [h0]
  decide

/-- Helper: if any document of the batch makes the loop body fail, the loop
as a whole fails (there is no per-record handler in the source). -/
theorem processDocs_error_of_mem (td : Value → Option Instant)
    (ss : Option Value → Except Unit (List Doc))
    (docs : List Doc) (d : Doc)
    (hmem : d ∈ docs) (herr : processDoc td ss d = .error ()) :
    processDocs td ss docs = .error () := by
  induction docs with
  | nil => cases hmem
  | cons a rest ih =>
    rcases List.mem_cons.mp hmem with h | h
    · unfold processDocs
      rw [h] at herr
      rw [herr]
    · unfold processDocs
      cases hpa : processDoc td ss a with
      | error e => cases e; rfl
      | ok rs => rw [ih h]

/-- C8 amended: a failure of a single per-record RelatedRecord lookup is
NOT absorbed locally; having no per-record handler, it escapes to the outer
handler and aborts the whole batch build, which reports an error and
returns the empty snapshot, exactly like a whole-fetch failure. -/
theorem lookup_failure_aborts_batch (td : Value → Option Instant)
    (ss : Option Value → Except Unit (List Doc))
    (docs : List Doc) (data : Doc)
    (hmem : data ∈ docs) (hne : data ≠ [])
    (hss : ss (dGet data "id") = .error ()) :
    fetch_user_data td (.ok docs) ss =
      { errorReported := true, rows := [] } := by
  have herr : processDoc td ss data = .error () := by
    unfold processDoc
    rw [if_neg hne]
    simp only [hss]
  simp only [fetch_user_data, processDocs_error_of_mem td ss docs data hmem herr]

/-- Witness for the amended C8 at the concrete 2-record batch. -/
theorem lookup_failure_aborts_batch_witness :
    fetch_user_data (fun _ => none) (.ok [c8doc1, c8doc2]) c8store =
      { errorReported := true, rows := [] } :=
  lookup_failure_aborts_batch (fun _ => none) c8store [c8doc1, c8doc2]
    c8doc2 (by decide) (by decide) rfl

/-- Helper: filtering with pointwise-equal predicates gives the same list. -/
theorem filter_eq_of_agree {α : Type} (p q : α → Bool) (l : List α)
    (h : ∀ x ∈ l, p x = q x) : l.filter p = l.filter q := by
  induction l with
  | nil => rfl
  | cons a rest ih =>
    have ha := h a (List.mem_cons_self a rest)
    simp only [List.filter_cons, ha]
    rw [ih (fun x hx => h x (List.mem_cons_of_mem a hx))]

/-- C9: on the Payment Status column, filter value True (resp. False)
returns exactly the rows whose flag is the boolean true (resp. false),
All returns the full row set, and no sort is applied in this branch — the
output is a filter of the input, so surviving rows keep snapshot order. -/
theorem payment_status_filter_exact (gender_filter sort_order : String)
    (rows : List JoinedRow)
    (hwt : ∀ r ∈ rows, r.paymentStatus = none ∨
      r.paymentStatus = some (Value.boolV true) ∨
      r.paymentStatus = some (Value.boolV false)) :
    sort_column "Payment Status" "True" gender_filter sort_order rows =
      rows.filter (fun r => r.paymentStatus == some (Value.boolV true)) ∧
    sort_column "Payment Status" "False" gender_filter sort_order rows =
      rows.filter (fun r => r.paymentStatus == some (Value.boolV false)) ∧
    sort_column "Payment Status" "All" gender_filter sort_order rows =
      rows := by
  refine ⟨?_, ?_, rfl⟩
  · show rows.filter (fun r => pyEqBool r.paymentStatus true) = _
    apply filter_eq_of_agree
    intro r hr
    rcases hwt r hr with h | h | h <;> rw [h] <;> rfl
  · show rows.filter (fun r => pyEqBool r.paymentStatus false) = _
    apply filter_eq_of_agree
    intro r hr
    rcases hwt r hr with h | h | h <;> rw [h] <;> rfl

/-- Concrete row with flag true for the C9 witness. -/
def c9rowT : JoinedRow :=
  { name := some (Value.str "A"), email := none, phone := none, age := none,
    gender := none, height := none, weight := none,
    paymentStatus := some (Value.boolV true), questionScore := none,
    riskLevel := "Unknown", rawTimestamp := none, timestampDisp := "N/A" }

/-- Concrete row with flag false for the C9 witness. -/
def c9rowF : JoinedRow :=
  { name := some (Value.str "B"), email := none, phone := none, age := none,
    gender := none, height := none, weight := none,
    paymentStatus := some (Value.boolV false), questionScore := none,
    riskLevel := "Unknown", rawTimestamp := none, timestampDisp := "N/A" }

/-- Concrete row with absent flag for the C9 witness. -/
def c9rowN : JoinedRow :=
  { name := some (Value.str "C"), email := none, phone := none, age := none,
    gender := none, height := none, weight := none,
    paymentStatus := none, questionScore := none,
    riskLevel := "Unknown", rawTimestamp := none, timestampDisp := "N/A" }

/-- Witness for C9: on a 3-row snapshot the True filter keeps exactly the
flag-true row. -/
theorem payment_status_filter_exact_witness :
    sort_column "Payment Status" "True" "All" "Ascending"
      [c9rowT, c9rowF, c9rowN] = [c9rowT] := by
  have h := (payment_status_filter_exact "All" "Ascending"
    [c9rowT, c9rowF, c9rowN] (by decide)).1
  rw [h]
  rfl

/-- C4: on the Timestamp column the sort key is the underlying canonical
instant (the display strings of the rows are arbitrary and play no role),
and a null-sentinel row is placed last in both directions: instants
[t1, null, t2] with t1 < t2 sort ascending to [t1, t2, null] and descending
to [t2, t1, null]. -/
theorem timestamp_sort_uses_instant_null_last
    (payment_filter gender_filter : String)
    (r1 r2 r3 : JoinedRow) (t1 t2 : Instant)
    (h1 : r1.rawTimestamp = some t1) (h2 : r2.rawTimestamp = none)
    (h3 : r3.rawTimestamp = some t2)
    (hle : Instant.leb t1 t2 = true) (hgt : Instant.leb t2 t1 = false) :
    sort_column "Timestamp" payment_filter gender_filter "Ascending"
      [r1, r2, r3] = [r1, r3, r2] ∧
    sort_column "Timestamp" payment_filter gender_filter "Descending"
      [r1, r2, r3] = [r3, r1, r2] := by
  constructor <;>
    simp [sort_column, sortByLe, insertLe, naLastLe, h1, h2, h3, hle, hgt]

/-- First instant of the C4 witness. -/
def c4t1 : Instant := ⟨2024, 1, 1, 0, 0, 0⟩

/-- Second (later) instant of the C4 witness. -/
def c4t2 : Instant := ⟨2024, 1, 2, 0, 0, 0⟩

/-- Row with the earlier instant for the C4 witness. -/
def c4row1 : JoinedRow :=
  { name := some (Value.str "A"), email := none, phone := none, age := none,
    gender := none, height := none, weight := none, paymentStatus := none,
    questionScore := none, riskLevel := "Unknown",
    rawTimestamp := some c4t1, timestampDisp := "01-01-2024 00:00:00" }

/-- Row with the null-sentinel instant for the C4 witness. -/
def c4row2 : JoinedRow :=
  { name := some (Value.str "B"), email := none, phone := none, age := none,
    gender := none, height := none, weight := none, paymentStatus := none,
    questionScore := none, riskLevel := "Unknown",
    rawTimestamp := none, timestampDisp := "N/A" }

/-- Row with the later instant for the C4 witness. -/
def c4row3 : JoinedRow :=
  { name := some (Value.str "C"), email := none, phone := none, age := none,
    gender := none, height := none, weight := none, paymentStatus := none,
    questionScore := none, riskLevel := "Unknown",
    rawTimestamp := some c4t2, timestampDisp := "02-01-2024 00:00:00" }

/-- Witness for C4 at concrete instants one day apart. -/
theorem timestamp_sort_uses_instant_null_last_witness :
    sort_column "Timestamp" "All" "All" "Ascending" [c4row1, c4row2, c4row3]
      = [c4row1, c4row3, c4row2] :=
  (timestamp_sort_uses_instant_null_last "All" "All" c4row1 c4row2 c4row3
    c4t1 c4t2 rfl rfl rfl (by decide) (by decide)).1
